import Mathlib

/-!
Verification of the advice arbitration pipeline of the coaching bot.

The definitions below are shallow embeddings of the TypeScript sources:
confidence scoring (services/confidenceCalculator.ts), the arbitration step
of the coaching engine (services/coachingEngine.ts, enrichAdvice and
isHighValueOpportunity), the trust calibrator
(services/playerTrustCalibrator.ts), the rate-limiting message queue
(services/messageQueue.ts) and the session-boundary handling of index.ts.
Numbers are modelled as rationals, JS optional values as Option, and the
mutable singletons as explicit state records.
-/

namespace CoachAI

/-- The five message priorities, strictly ordered with GAME_ENDING highest
(types/coaching.ts, MessagePriority). -/
inductive MessagePriority
  | GAME_ENDING
  | CRITICAL
  | HIGH
  | MEDIUM
  | LOW
deriving DecidableEq, Repr

/-- Net worth context attached to advice (types/coaching.ts). -/
structure NetWorthContext where
  delta : ℚ
  deltaPercent : ℚ
deriving DecidableEq, Repr

/-- Candidate advice (types/coaching.ts, CoachingAdvice), restricted to the
fields the arbitration pipeline reads.  The optional confidence field is the
one the producer attached; the undefined JS flag isDoNothing is modelled as a
Bool defaulting to false. -/
structure CoachingAdvice where
  priority : MessagePriority
  message : String
  confidence : Option ℚ
  isDoNothing : Bool
  netWorthContext : Option NetWorthContext
  gameTime : ℚ
deriving DecidableEq, Repr

/-- One observed opposing entity in a processed snapshot
(types/gameState.ts, ProcessedEnemy), restricted to the fields the
confidence scorer reads. -/
structure ProcessedEnemy where
  visible : Bool
  hasPosition : Bool
  netWorth : ℚ
deriving DecidableEq, Repr

/-- A processed snapshot (types/gameState.ts, ProcessedGameState), restricted
to the fields the confidence scorer reads.  JS truthiness of the optional
sub-objects is modelled by presence booleans, and the collections by their
sizes where only the size is read. -/
structure ProcessedGameState where
  playerPresent : Bool
  heroPresent : Bool
  buildingsPresent : Bool
  buildingsRadiantPresent : Bool
  buildingsDirePresent : Bool
  itemsPresent : Bool
  allItemsLen : Nat
  abilitiesPresent : Bool
  abilitiesCount : Nat
  teamPlayersLen : Nat
  teamNetWorth : ℚ
  enemies : List ProcessedEnemy
deriving DecidableEq, Repr

/-- Clamp a scalar to the unit interval, as Math.max(0, Math.min(1, x)). -/
def clamp01 (x : ℚ) : ℚ := max 0 (min 1 x)

/-- ConfidenceCalculator.calculateDataCompleteness: starts at 1.0, subtracts
penalties for missing sections, then averages with the teammate fraction and
clamps. -/
def calculateDataCompleteness (g : ProcessedGameState) : ℚ :=
  let c1 : ℚ := if !(g.playerPresent && g.heroPresent) then 1 - 3/10 else 1
  let c2 : ℚ :=
    if !(g.buildingsPresent && g.buildingsRadiantPresent && g.buildingsDirePresent)
    then c1 - 2/10 else c1
  let c3 : ℚ := if !g.itemsPresent || g.allItemsLen == 0 then c2 - 1/10 else c2
  let c4 : ℚ := if !g.abilitiesPresent || g.abilitiesCount == 0 then c3 - 1/10 else c3
  let teamDataCompleteness : ℚ := (g.teamPlayersLen : ℚ) / 5
  clamp01 ((c4 + teamDataCompleteness) / 2)

/-- ConfidenceCalculator.calculateVisionCertainty: ratio of visible to total
opposing entities (falling back to 5 when the roster is empty), boosted by
0.2 when any position data exists, scaled by 0.7 when three or more are
missing, clamped. -/
def calculateVisionCertainty (g : ProcessedGameState) : ℚ :=
  let visibleEnemies := (g.enemies.filter (fun e => e.visible)).length
  let totalEnemies := if g.enemies.length == 0 then 5 else g.enemies.length
  let certainty : ℚ := (visibleEnemies : ℚ) / (totalEnemies : ℚ)
  let enemiesWithPosition := (g.enemies.filter (fun e => e.hasPosition)).length
  let certainty := if enemiesWithPosition > 0 then min 1 (certainty + 2/10) else certainty
  let missingEnemies := totalEnemies - visibleEnemies
  let certainty := if missingEnemies ≥ 3 then certainty * (7/10) else certainty
  clamp01 certainty

/-- ConfidenceCalculator.calculateTimingPrecision: a step function of the
timing-window width.  A JS-falsy window (absent, or equal to 0) yields 0.5. -/
def calculateTimingPrecision (timingWindow : Option ℚ) : ℚ :=
  match timingWindow with
  | none => 1/2
  | some w =>
    if w = 0 then 1/2
    else if w < 30 then 9/10
    else if w < 60 then 8/10
    else if w < 120 then 6/10
    else 4/10

/-- ConfidenceCalculator.calculateNetWorthReliability: 0.5 plus half the
fraction of the opposing roster with known net worth when both side totals
are positive, 0.6 when only the operator side total is positive, 0.3
otherwise. -/
def calculateNetWorthReliability (g : ProcessedGameState) : ℚ :=
  let teamNetWorth := g.teamNetWorth
  let enemyNetWorth := (g.enemies.map (fun e => e.netWorth)).sum
  if 0 < teamNetWorth ∧ 0 < enemyNetWorth then
    let enemiesWithNetWorth := (g.enemies.filter (fun e => 0 < e.netWorth)).length
    let enemyDataCompleteness : ℚ :=
      (enemiesWithNetWorth : ℚ) / ((max g.enemies.length 1 : Nat) : ℚ)
    1/2 + enemyDataCompleteness * (1/2)
  else if 0 < teamNetWorth then 6/10
  else 3/10

/-- Substring test over strings, modelling JS String.prototype.includes. -/
def containsSub (s sub : String) : Bool :=
  (List.range (s.length + 1)).any (fun i => sub.data.isPrefixOf (s.data.drop i))

/-- The four confidence factors (ConfidenceFactors interface). -/
structure ConfidenceFactors where
  dataCompleteness : ℚ
  visionCertainty : ℚ
  timingPrecision : ℚ
  netWorthReliability : ℚ
deriving DecidableEq, Repr

/-- The factor breakdown computed by ConfidenceCalculator.calculateConfidence. -/
def confidenceFactors (g : ProcessedGameState) (timingWindow : Option ℚ) : ConfidenceFactors :=
  { dataCompleteness := calculateDataCompleteness g
    visionCertainty := calculateVisionCertainty g
    timingPrecision := calculateTimingPrecision timingWindow
    netWorthReliability := calculateNetWorthReliability g }

/-- Whether the advice type selects the push-window weight profile
(adviceType.includes of push or window). -/
def isPushOrWindowType (adviceType : String) : Bool :=
  containsSub adviceType "push" || containsSub adviceType "window"

/-- ConfidenceCalculator.calculateConfidence: weighted sum of the four
factors, weights 0.2/0.3/0.4/0.1 for push- or window-class advice and
0.3/0.3/0.2/0.2 otherwise. -/
def calculateConfidence (g : ProcessedGameState) (adviceType : String)
    (timingWindow : Option ℚ) : ℚ :=
  let factors := confidenceFactors g timingWindow
  if isPushOrWindowType adviceType then
    factors.dataCompleteness * (2/10) + factors.visionCertainty * (3/10) +
      factors.timingPrecision * (4/10) + factors.netWorthReliability * (1/10)
  else
    factors.dataCompleteness * (3/10) + factors.visionCertainty * (3/10) +
      factors.timingPrecision * (2/10) + factors.netWorthReliability * (2/10)

/-- ConfidenceCalculator.shouldSuppressAdvice: never for GAME_ENDING or
CRITICAL; suppress below 0.5, and below 0.7 for LOW priority. -/
def shouldSuppressAdvice (confidence : ℚ) (priority : MessagePriority) : Bool :=
  if priority = .GAME_ENDING ∨ priority = .CRITICAL then false
  else if confidence < 1/2 then true
  else if confidence < 7/10 ∧ priority = .LOW then true
  else false

/-- Trust-profile verbosity levels (TrustMetrics interface). -/
inductive VerbosityLevel
  | high
  | medium
  | low
deriving DecidableEq, Repr

/-- Trust-profile explanation levels (TrustMetrics interface). -/
inductive ExplanationLevel
  | detailed
  | standard
  | minimal
deriving DecidableEq, Repr

/-- The trust profile (playerTrustCalibrator.ts, TrustMetrics). -/
structure TrustMetrics where
  complianceRate : ℚ
  positiveOutcomeRate : ℚ
  averageResponseTime : ℚ
  verbosityLevel : VerbosityLevel
  explanationLevel : ExplanationLevel
deriving DecidableEq, Repr

/-- The neutral trust profile installed by the calibrator constructor and by
clear(). -/
def initialTrustMetrics : TrustMetrics :=
  { complianceRate := 1/2
    positiveOutcomeRate := 1/2
    averageResponseTime := 0
    verbosityLevel := .medium
    explanationLevel := .standard }

/-- PlayerTrustCalibrator.shouldReduceVerbosity: true when the verbosity
level is low. -/
def shouldReduceVerbosity (m : TrustMetrics) : Bool :=
  m.verbosityLevel = .low

/-- CoachingEngine.isHighValueOpportunity: true for GAME_ENDING or CRITICAL,
for an attached confidence above 0.85, or for a net worth delta of magnitude
above 10000. -/
def isHighValueOpportunity (advice : CoachingAdvice) : Bool :=
  if advice.priority = .GAME_ENDING ∨ advice.priority = .CRITICAL then true
  else if (match advice.confidence with
           | some c => decide (c > 85/100)
           | none => false) then true
  else match advice.netWorthContext with
    | some ctx => decide (|ctx.delta| > 10000)
    | none => false

/-- The suppression decision of CoachingEngine.enrichAdvice, true when the
advice is delivered: first confidence suppression, then trust-based
verbosity suppression of LOW advice with the high-value override.  The score
argument is the freshly computed confidence score. -/
def enrichDecision (advice : CoachingAdvice) (score : ℚ) (trust : TrustMetrics) : Bool :=
  if shouldSuppressAdvice score advice.priority then false
  else if shouldReduceVerbosity trust && decide (advice.priority = .LOW) && !advice.isDoNothing then
    if !isHighValueOpportunity advice then false else true
  else true

/-- Compliance states (playerTrustCalibrator.ts, ComplianceState). -/
inductive ComplianceState
  | full_compliance
  | partial_compliance
  | ambiguous_compliance
  | no_compliance
  | delayed_compliance
deriving DecidableEq, Repr

/-- Outcome labels attached to compliance records. -/
inductive AdviceOutcome
  | positive
  | negative
  | neutral
  | unknown
deriving DecidableEq, Repr

/-- One compliance record (playerTrustCalibrator.ts, ComplianceRecord). -/
structure ComplianceRecord where
  adviceId : String
  advice : CoachingAdvice
  gameTime : ℚ
  followed : Bool
  complianceState : ComplianceState
  outcome : AdviceOutcome
  timeToComply : Option ℚ
  certainty : ℚ
deriving DecidableEq, Repr

/-- The calibrator's mutable state: bounded compliance history, current
trust metrics, and the advice tracking map (modelled as an association
list). -/
structure CalibratorState where
  complianceHistory : List ComplianceRecord
  currentTrustMetrics : TrustMetrics
  adviceTracking : List (String × CoachingAdvice)
deriving DecidableEq, Repr

/-- A fresh calibrator, as built by the constructor. -/
def initialCalibratorState : CalibratorState :=
  { complianceHistory := []
    currentTrustMetrics := initialTrustMetrics
    adviceTracking := [] }

/-- Map lookup on the advice tracking association list. -/
def trackingLookup (id : String) (m : List (String × CoachingAdvice)) : Option CoachingAdvice :=
  (m.find? (fun p => p.1 = id)).map (fun p => p.2)

/-- The MAX_HISTORY bound of the compliance history. -/
def MAX_HISTORY : Nat := 100

/-- The last ten records of the history, as complianceHistory.slice(-10). -/
def lastTen (h : List ComplianceRecord) : List ComplianceRecord :=
  h.drop (h.length - 10)

/-- The binary followed/not-followed values of a record list, as the
complianceValues array of shouldUpdateTrust. -/
def followedValues (recent : List ComplianceRecord) : List ℚ :=
  recent.map (fun r => if r.followed then 1 else 0)

/-- Variance of the binary followed values of the last ten records, exactly
as computed inside PlayerTrustCalibrator.shouldUpdateTrust. -/
def varianceLastTen (h : List ComplianceRecord) : ℚ :=
  let vs := followedValues (lastTen h)
  let m := vs.sum / (vs.length : ℚ)
  (vs.map (fun v => (v - m) ^ 2)).sum / (vs.length : ℚ)

/-- Mean certainty of the last ten records, exactly as computed inside
PlayerTrustCalibrator.shouldUpdateTrust. -/
def meanCertaintyLastTen (h : List ComplianceRecord) : ℚ :=
  ((lastTen h).map (fun r => r.certainty)).sum / ((lastTen h).length : ℚ)

/-- PlayerTrustCalibrator.shouldUpdateTrust: false under ten records,
otherwise low variance of the last ten followed bits or high mean
certainty. -/
def shouldUpdateTrust (h : List ComplianceRecord) : Bool :=
  if h.length < 10 then false
  else decide (varianceLastTen h < 3/10) || decide (meanCertaintyLastTen h > 7/10)

/-- The grade multiplier applied inside
PlayerTrustCalibrator.getWeightForCertainty. -/
def gradeMultiplier (state : ComplianceState) : ℚ :=
  match state with
  | .full_compliance => 1
  | .partial_compliance => 1/2
  | .ambiguous_compliance => 2/10
  | .no_compliance => 1
  | .delayed_compliance => 7/10

/-- PlayerTrustCalibrator.getWeightForCertainty: certainty times the grade
multiplier, clamped to the unit interval. -/
def getWeightForCertainty (certainty : ℚ) (state : ComplianceState) : ℚ :=
  clamp01 (certainty * gradeMultiplier state)

/-- PlayerTrustCalibrator.updateTrustMetrics: recomputes the trust profile
from the weighted history; early returns on an empty history or zero total
weight, keeps the previous positive-outcome rate and response time when
their restricted populations are empty, and rethresholds verbosity and
explanation from the new compliance rate. -/
def updateTrustMetrics (s : CalibratorState) : CalibratorState :=
  if s.complianceHistory.length = 0 then s
  else
    let weighted := s.complianceHistory.map
      (fun r => (r, getWeightForCertainty r.certainty r.complianceState))
    let totalWeight := (weighted.map (fun w => w.2)).sum
    if totalWeight = 0 then s
    else
      let complianceWeight :=
        ((weighted.filter (fun w => w.1.followed)).map (fun w => w.2)).sum
      let complianceRate := complianceWeight / totalWeight
      let followedAdvice := weighted.filter (fun w => w.1.followed)
      let positiveOutcomeRate :=
        if followedAdvice.length = 0 then s.currentTrustMetrics.positiveOutcomeRate
        else
          let positiveWeight :=
            ((followedAdvice.filter (fun w => w.1.outcome = .positive)).map
              (fun w => w.2)).sum
          let totalFollowedWeight := (followedAdvice.map (fun w => w.2)).sum
          if 0 < totalFollowedWeight then positiveWeight / totalFollowedWeight else 1/2
      let responseTimes := (s.complianceHistory.filterMap
        (fun r => r.timeToComply.map (fun t => (t, r.certainty))))
      let averageResponseTime :=
        if responseTimes.length = 0 then s.currentTrustMetrics.averageResponseTime
        else
          let totalTimeWeight := (responseTimes.map (fun r => r.2)).sum
          let weightedTime := (responseTimes.map (fun r => r.1 * r.2)).sum
          if 0 < totalTimeWeight then weightedTime / totalTimeWeight else 0
      let levels : VerbosityLevel × ExplanationLevel :=
        if complianceRate > 3/4 then (.low, .minimal)
        else if complianceRate < 1/4 then (.high, .detailed)
        else (.medium, .standard)
      { s with currentTrustMetrics :=
          { complianceRate := complianceRate
            positiveOutcomeRate := positiveOutcomeRate
            averageResponseTime := averageResponseTime
            verbosityLevel := levels.1
            explanationLevel := levels.2 } }

/-- Push a record onto the history and evict the oldest entry past the
MAX_HISTORY cap, as the push and conditional shift of checkCompliance. -/
def appendBounded (h : List ComplianceRecord) (r : ComplianceRecord) :
    List ComplianceRecord :=
  let h2 := h ++ [r]
  if h2.length > MAX_HISTORY then h2.tail else h2

/-- The compliance record built inside checkCompliance: followed is true
exactly when the detected state is not no-compliance, and the response time
is recorded only for followed records. -/
def buildComplianceRecord (adviceId : String) (advice : CoachingAdvice)
    (detectedState : ComplianceState) (detectedCertainty : ℚ)
    (outcome : AdviceOutcome) (responseTime gameTime : ℚ) : ComplianceRecord :=
  let followed := decide (detectedState ≠ .no_compliance)
  { adviceId := adviceId
    advice := advice
    gameTime := gameTime
    followed := followed
    complianceState := detectedState
    outcome := outcome
    timeToComply := if followed then some responseTime else none
    certainty := detectedCertainty }

/-- PlayerTrustCalibrator.checkCompliance for a registered advice id: build
the record from the detector output (the compliance state and certainty
returned by detectCompliance, the outcome of assessOutcome and the computed
response time are passed as arguments, since they are functions of the two
snapshots and the claims quantify over all their values), append it to the
bounded history, and update the trust metrics when the gate allows.  An
unregistered id is a no-op. -/
def checkCompliance (s : CalibratorState) (adviceId : String)
    (detectedState : ComplianceState) (detectedCertainty : ℚ)
    (outcome : AdviceOutcome) (responseTime : ℚ) (gameTime : ℚ) : CalibratorState :=
  match trackingLookup adviceId s.adviceTracking with
  | none => s
  | some advice =>
    let record := buildComplianceRecord adviceId advice detectedState detectedCertainty
      outcome responseTime gameTime
    let s1 := { s with complianceHistory := appendBounded s.complianceHistory record }
    if shouldUpdateTrust s1.complianceHistory then updateTrustMetrics s1 else s1

/-- Iterated grading calls with the same registered id and detector
output, as performed tick after tick by checkComplianceForPreviousAdvice
in index.ts. -/
def iterCheckCompliance (s : CalibratorState) (adviceId : String)
    (detectedState : ComplianceState) (detectedCertainty : ℚ)
    (outcome : AdviceOutcome) (responseTime : ℚ) (gameTime : ℚ) : Nat → CalibratorState
  | 0 => s
  | n + 1 =>
    checkCompliance
      (iterCheckCompliance s adviceId detectedState detectedCertainty outcome
        responseTime gameTime n)
      adviceId detectedState detectedCertainty outcome responseTime gameTime

/-- PlayerTrustCalibrator.clear: empty history, empty tracking map, neutral
metrics. -/
def calibratorClear (_ : CalibratorState) : CalibratorState :=
  initialCalibratorState

/-- Modelled from the spec: the RATE_LIMITS table of config/constants.ts is
not present in the tree, so the priority-keyed minimum message spacings in
milliseconds are taken from the table reproduced in
THREAT_AND_FAILURE_TAXONOMY.md and from the spec's 30s/60s/120s spacing for
HIGH/MEDIUM/LOW and no spacing for GAME_ENDING. -/
def RATE_LIMITS (p : MessagePriority) : ℤ :=
  match p with
  | .GAME_ENDING => 0
  | .CRITICAL => 10000
  | .HIGH => 30000
  | .MEDIUM => 60000
  | .LOW => 120000

/-- The message queue state (messageQueue.ts): the shared last-delivered
clock, the capped delivery history, and the FIFO pending buffer. -/
structure QueueState where
  lastMessageTime : ℤ
  messageHistory : List CoachingAdvice
  pendingMessages : List CoachingAdvice
deriving DecidableEq, Repr

/-- A fresh queue, as built by the constructor. -/
def initialQueueState : QueueState :=
  { lastMessageTime := 0, messageHistory := [], pendingMessages := [] }

/-- MessageQueue.shouldSend at wall-clock time now: GAME_ENDING always
passes; CRITICAL passes after a hard-coded 30000 ms cooldown; other
priorities pass after their RATE_LIMITS spacing, with HIGH advice appended
to the pending buffer when refused.  Returns the verdict and the updated
state. -/
def shouldSend (s : QueueState) (now : ℤ) (advice : CoachingAdvice) :
    Bool × QueueState :=
  let timeSinceLastMessage := now - s.lastMessageTime
  if advice.priority = .GAME_ENDING then (true, s)
  else if advice.priority = .CRITICAL then
    if timeSinceLastMessage < 30000 then (false, s) else (true, s)
  else if timeSinceLastMessage < RATE_LIMITS advice.priority then
    if advice.priority = .HIGH then
      (false, { s with pendingMessages := s.pendingMessages ++ [advice] })
    else (false, s)
  else (true, s)

/-- MessageQueue.markSent at wall-clock time now: stamp the shared clock,
append to the 50-capped history, and drop the advice from the pending
buffer. -/
def markSent (s : QueueState) (now : ℤ) (advice : CoachingAdvice) : QueueState :=
  let history := s.messageHistory ++ [advice]
  let history := if history.length > 50 then history.tail else history
  { lastMessageTime := now
    messageHistory := history
    pendingMessages := s.pendingMessages.filter (fun m => m ≠ advice) }

/-- MessageQueue.getNextPending at wall-clock time now: pop the oldest
pending message when the spacing for its priority has elapsed. -/
def getNextPending (s : QueueState) (now : ℤ) : Option CoachingAdvice × QueueState :=
  let timeSinceLastMessage := now - s.lastMessageTime
  match s.pendingMessages with
  | [] => (none, s)
  | next :: rest =>
    if RATE_LIMITS next.priority ≤ timeSinceLastMessage then
      (some next, { s with pendingMessages := rest })
    else (none, s)

/-- MessageQueue.clear: reset the clock, the history and the buffer. -/
def queueClear (_ : QueueState) : QueueState :=
  initialQueueState

/-- One interaction with the rate limiter, as performed by
handleGameStateUpdate in index.ts: a delivery attempt (shouldSend followed
by markSent on success) or an opportunistic drain of the pending buffer
(getNextPending followed by markSent on success), each at a wall-clock
time. -/
inductive QEvent
  | attempt (t : ℤ) (a : CoachingAdvice)
  | drain (t : ℤ)
deriving Repr

/-- The wall-clock time of a queue event. -/
def QEvent.time : QEvent → ℤ
  | .attempt t _ => t
  | .drain t => t

/-- Execute one queue event, returning the next state and the delivery it
produced, if any. -/
def stepQ (s : QueueState) (e : QEvent) : QueueState × Option (ℤ × CoachingAdvice) :=
  match e with
  | .attempt t a =>
    match shouldSend s t a with
    | (true, s1) => (markSent s1 t a, some (t, a))
    | (false, s1) => (s1, none)
  | .drain t =>
    match getNextPending s t with
    | (some a, s1) => (markSent s1 t a, some (t, a))
    | (none, s1) => (s1, none)

/-- Execute a sequence of queue events, collecting the deliveries in
order. -/
def runQ (s : QueueState) : List QEvent → QueueState × List (ℤ × CoachingAdvice)
  | [] => (s, [])
  | e :: es =>
    match stepQ s e with
    | (s1, some d) =>
      let r := runQ s1 es
      (r.1, d :: r.2)
    | (s1, none) => runQ s1 es

/-- The session-level state mutated by index.ts: the calibrator, the
message queue, the coach's own advice tracking map of ids to message texts,
and whether the post-game analyzer considers a game active. -/
structure CoachState where
  calibrator : CalibratorState
  queue : QueueState
  coachAdviceTracking : List (String × String)
  analyzerActive : Bool
deriving DecidableEq, Repr

/-- The session-start transition of handleGameStateUpdate in index.ts: on a
game-in-progress snapshot with the analyzer inactive, the analyzer is
started and playerTrustCalibrator.clear() is invoked.  No other state is
touched. -/
def handleSessionStart (s : CoachState) : CoachState :=
  if s.analyzerActive then s
  else { s with analyzerActive := true, calibrator := calibratorClear s.calibrator }

/-- The resource-reliability factor as the specification words it: 0.3 when
neither side's aggregate resource total is known, 0.6 when only the
operator's side total is known, and in every other case 0.5 plus half the
fraction of the opposing roster with known resource values.  Stated for
comparison against calculateNetWorthReliability. -/
def netWorthReliabilitySpec (g : ProcessedGameState) : ℚ :=
  let teamKnown := 0 < g.teamNetWorth
  let enemyKnown := 0 < (g.enemies.map (fun e => e.netWorth)).sum
  if ¬teamKnown ∧ ¬enemyKnown then 3/10
  else if teamKnown ∧ ¬enemyKnown then 6/10
  else
    1/2 + ((g.enemies.filter (fun e => 0 < e.netWorth)).length : ℚ) /
      ((max g.enemies.length 1 : Nat) : ℚ) * (1/2)

/-- A snapshot whose operator-side total is unknown while one opposing
entity has a known resource value. -/
def c8Snapshot : ProcessedGameState :=
  { playerPresent := true, heroPresent := true, buildingsPresent := true
    buildingsRadiantPresent := true, buildingsDirePresent := true
    itemsPresent := true, allItemsLen := 3, abilitiesPresent := true
    abilitiesCount := 4, teamPlayersLen := 5, teamNetWorth := 0
    enemies := [{ visible := true, hasPosition := false, netWorth := 100 }] }

/-- A LOW-priority advice carrying a 15000 resource delta and an attached
confidence of 0.4. -/
def c5Advice : CoachingAdvice :=
  { priority := .LOW, message := "Push now", confidence := some (4/10)
    isDoNothing := false, netWorthContext := some { delta := 15000, deltaPercent := 20 }
    gameTime := 0 }

/-- A trust profile whose verbosity level is low. -/
def lowVerbosityTrust : TrustMetrics :=
  { complianceRate := 8/10, positiveOutcomeRate := 1/2, averageResponseTime := 0
    verbosityLevel := .low, explanationLevel := .minimal }

/-- The per-record weight the update computation uses, as the spec words
it: certainty times the grade multiplier. -/
def recordWeight (r : ComplianceRecord) : ℚ :=
  r.certainty * gradeMultiplier r.complianceState

/-- A grade counts as followed, per the spec, exactly when it is full,
partial, ambiguous or delayed. -/
def isFollowedGrade (st : ComplianceState) : Bool :=
  st = .full_compliance ∨ st = .partial_compliance ∨
    st = .ambiguous_compliance ∨ st = .delayed_compliance

/-- A fixed advice used in the concrete calibrator scenarios. -/
def c3Advice : CoachingAdvice :=
  { priority := .MEDIUM, message := "Focus farm", confidence := none
    isDoNothing := false, netWorthContext := none, gameTime := 0 }

/-- A followed full-compliance record of certainty 0.9. -/
def c3Record : ComplianceRecord :=
  { adviceId := "a", advice := c3Advice, gameTime := 0, followed := true
    complianceState := .full_compliance, outcome := .unknown
    timeToComply := some 0, certainty := 9/10 }

/-- A calibrator holding eight records with the neutral profile and one
registered advice. -/
def c3StateEight : CalibratorState :=
  { complianceHistory := List.replicate 8 c3Record
    currentTrustMetrics := initialTrustMetrics
    adviceTracking := [("a", c3Advice)] }

/-- One grading call against the registered advice, with a high-certainty
full-compliance detector result. -/
def c3Step (s : CalibratorState) : CalibratorState :=
  checkCompliance s "a" .full_compliance (9/10) .unknown 0 0

/-- A calibrator holding nine records with the neutral profile and one
registered advice. -/
def c3StateNine : CalibratorState :=
  { complianceHistory := List.replicate 9 c3Record
    currentTrustMetrics := initialTrustMetrics
    adviceTracking := [("a", c3Advice)] }

/-- A not-followed no-compliance record of certainty 0.3. -/
def c7RecordMissed : ComplianceRecord :=
  { adviceId := "b", advice := c3Advice, gameTime := 0, followed := false
    complianceState := .no_compliance, outcome := .unknown
    timeToComply := none, certainty := 3/10 }

/-- A calibrator holding two followed and one not-followed record. -/
def c7State : CalibratorState :=
  { complianceHistory := [c3Record, c7RecordMissed, c3Record]
    currentTrustMetrics := initialTrustMetrics
    adviceTracking := [] }

/-- A calibrator holding one record and one registered advice, used for the
regrading scenario. -/
def c9State : CalibratorState :=
  { complianceHistory := [c3Record]
    currentTrustMetrics := initialTrustMetrics
    adviceTracking := [("a", c3Advice)] }

/-- Every buffered message has HIGH priority: the invariant of the pending
buffer, which only shouldSend's HIGH branch ever fills. -/
def pendingAllHigh (s : QueueState) : Prop :=
  ∀ a ∈ s.pendingMessages, a.priority = .HIGH

/-- A LOW-priority advice used in the rate-limiter scenarios. -/
def c4LowAdvice : CoachingAdvice :=
  { priority := .LOW, message := "Stack camps", confidence := none
    isDoNothing := false, netWorthContext := none, gameTime := 0 }

/-- A HIGH-priority advice used in the pending-buffer scenarios. -/
def c10HighAdvice : CoachingAdvice :=
  { priority := .HIGH, message := "Take tower", confidence := none
    isDoNothing := false, netWorthContext := none, gameTime := 0 }

/-- A queue mid-session: a stamped clock, one delivered message and one
buffered message. -/
def c6Queue : QueueState :=
  { lastMessageTime := 5, messageHistory := [c10HighAdvice]
    pendingMessages := [c10HighAdvice] }

/-- A full coach state about to see a session start. -/
def c6State : CoachState :=
  { calibrator := c3StateEight, queue := c6Queue
    coachAdviceTracking := [("a", "Focus farm")], analyzerActive := false }

/- ------------------------------------------------------------------ -/
/- Helper lemmas -/
/- ------------------------------------------------------------------ -/

theorem clamp01_nonneg (x : ℚ) : 0 ≤ clamp01 x := le_max_left 0 _

theorem clamp01_le_one (x : ℚ) : clamp01 x ≤ 1 :=
  max_le (by norm_num) (min_le_left 1 x)

theorem clamp01_eq_self {x : ℚ} (h0 : 0 ≤ x) (h1 : x ≤ 1) : clamp01 x = x := by
  unfold clamp01
  rw [min_eq_right h1, max_eq_right h0]

theorem dataCompleteness_mem (g : ProcessedGameState) :
    0 ≤ calculateDataCompleteness g ∧ calculateDataCompleteness g ≤ 1 :=
  ⟨clamp01_nonneg _, clamp01_le_one _⟩

theorem visionCertainty_mem (g : ProcessedGameState) :
    0 ≤ calculateVisionCertainty g ∧ calculateVisionCertainty g ≤ 1 :=
  ⟨clamp01_nonneg _, clamp01_le_one _⟩

theorem timingPrecision_mem (tw : Option ℚ) :
    0 ≤ calculateTimingPrecision tw ∧ calculateTimingPrecision tw ≤ 1 := by
  rcases tw with _ | w
  · norm_num [calculateTimingPrecision]
  · simp only [calculateTimingPrecision]
    split_ifs <;> norm_num

theorem netWorthReliability_mem (g : ProcessedGameState) :
    0 ≤ calculateNetWorthReliability g ∧ calculateNetWorthReliability g ≤ 1 := by
  unfold calculateNetWorthReliability
  dsimp only
  split_ifs with h1 h2
  · have hlen : ((g.enemies.filter (fun e => 0 < e.netWorth)).length : ℚ) ≤
        ((max g.enemies.length 1 : Nat) : ℚ) := by
      have := List.length_filter_le (fun e => decide (0 < e.netWorth)) g.enemies
      have h2 : g.enemies.length ≤ max g.enemies.length 1 := le_max_left _ _
      exact_mod_cast le_trans this h2
    have hd : (0:ℚ) < ((max g.enemies.length 1 : Nat) : ℚ) := by
      have : 1 ≤ max g.enemies.length 1 := le_max_right _ _
      exact_mod_cast lt_of_lt_of_le Nat.zero_lt_one this
    have hfrac0 : (0:ℚ) ≤ ((g.enemies.filter (fun e => 0 < e.netWorth)).length : ℚ) /
        ((max g.enemies.length 1 : Nat) : ℚ) := by positivity
    have hfrac1 : ((g.enemies.filter (fun e => 0 < e.netWorth)).length : ℚ) /
        ((max g.enemies.length 1 : Nat) : ℚ) ≤ 1 := (div_le_one hd).mpr hlen
    constructor <;> nlinarith
  · norm_num
  · norm_num

theorem updateTrustMetrics_history (s : CalibratorState) :
    (updateTrustMetrics s).complianceHistory = s.complianceHistory := by
  unfold updateTrustMetrics
  dsimp only
  split_ifs <;> rfl

theorem updateTrustMetrics_tracking (s : CalibratorState) :
    (updateTrustMetrics s).adviceTracking = s.adviceTracking := by
  unfold updateTrustMetrics
  dsimp only
  split_ifs <;> rfl

theorem shouldUpdateTrust_eq_true_iff (h : List ComplianceRecord) :
    shouldUpdateTrust h = true ↔
      10 ≤ h.length ∧ (varianceLastTen h < 3/10 ∨ meanCertaintyLastTen h > 7/10) := by
  unfold shouldUpdateTrust
  split_ifs with hl
  · have hn : ¬ 10 ≤ h.length := by omega
    simp [hn]
  · have h10 : 10 ≤ h.length := not_lt.mp hl
    simp [h10, decide_eq_true_eq]

theorem shouldUpdateTrust_of_lt (h : List ComplianceRecord) (hl : h.length < 10) :
    shouldUpdateTrust h = false := by
  unfold shouldUpdateTrust
  rw [if_pos hl]

theorem appendBounded_of_le (h : List ComplianceRecord) (r : ComplianceRecord)
    (hle : h.length + 1 ≤ MAX_HISTORY) : appendBounded h r = h ++ [r] := by
  unfold appendBounded
  dsimp only
  rw [if_neg]
  simp only [List.length_append, List.length_singleton]
  omega

theorem appendBounded_length (h : List ComplianceRecord) (r : ComplianceRecord)
    (hle : h.length ≤ MAX_HISTORY) :
    (appendBounded h r).length = min (h.length + 1) MAX_HISTORY := by
  unfold appendBounded
  dsimp only
  split_ifs with hgt
  · rw [List.length_tail]
    simp only [List.length_append, List.length_singleton] at hgt ⊢
    omega
  · simp only [List.length_append, List.length_singleton] at hgt ⊢
    omega

theorem appendBounded_getLast (h : List ComplianceRecord) (r : ComplianceRecord) :
    (appendBounded h r).getLast? = some r := by
  unfold appendBounded
  dsimp only
  split_ifs with hgt
  · cases h with
    | nil => simp [MAX_HISTORY] at hgt
    | cons a t => simp [List.getLast?_concat]
  · simp [List.getLast?_concat]

theorem checkCompliance_tracking (s : CalibratorState) (id : String)
    (st : ComplianceState) (c : ℚ) (out : AdviceOutcome) (rt gt : ℚ) :
    (checkCompliance s id st c out rt gt).adviceTracking = s.adviceTracking := by
  unfold checkCompliance
  cases hlook : trackingLookup id s.adviceTracking with
  | none => rfl
  | some adv =>
    dsimp only
    split_ifs
    · rw [updateTrustMetrics_tracking]
    · rfl

theorem checkCompliance_history_of_lookup (s : CalibratorState) (id : String)
    (st : ComplianceState) (c : ℚ) (out : AdviceOutcome) (rt gt : ℚ)
    (adv : CoachingAdvice) (hlook : trackingLookup id s.adviceTracking = some adv) :
    (checkCompliance s id st c out rt gt).complianceHistory =
      appendBounded s.complianceHistory
        (buildComplianceRecord id adv st c out rt gt) := by
  unfold checkCompliance
  rw [hlook]
  dsimp only
  split_ifs
  · rw [updateTrustMetrics_history]
  · rfl

theorem checkCompliance_small (s : CalibratorState) (id : String)
    (st : ComplianceState) (c : ℚ) (out : AdviceOutcome) (rt gt : ℚ)
    (h : s.complianceHistory.length ≤ 8) :
    (checkCompliance s id st c out rt gt).currentTrustMetrics = s.currentTrustMetrics ∧
    (checkCompliance s id st c out rt gt).complianceHistory.length ≤
      s.complianceHistory.length + 1 := by
  unfold checkCompliance
  cases hlook : trackingLookup id s.adviceTracking with
  | none => exact ⟨rfl, Nat.le_succ _⟩
  | some adv =>
    dsimp only
    have hab : ∀ r : ComplianceRecord,
        (appendBounded s.complianceHistory r).length = s.complianceHistory.length + 1 := by
      intro r
      rw [appendBounded_of_le _ _ (by simp only [MAX_HISTORY]; omega)]
      simp
    rw [if_neg]
    · exact ⟨rfl, le_of_eq (hab _)⟩
    · rw [shouldUpdateTrust_of_lt]
      · simp
      · rw [hab]
        omega

theorem weightedPairs_filter_sum (l : List ComplianceRecord)
    (f : ComplianceRecord → ℚ) (p : ComplianceRecord → Bool) :
    (((l.map (fun r => (r, f r))).filter (fun w => p w.1)).map (fun w => w.2)).sum =
      ((l.filter p).map f).sum := by
  induction l with
  | nil => rfl
  | cons a t ih =>
    by_cases hp : p a <;> simp [List.filter_cons, hp, ih]

theorem weightedPairs_total_sum (l : List ComplianceRecord)
    (f : ComplianceRecord → ℚ) :
    ((l.map (fun r => (r, f r))).map (fun w => w.2)).sum = (l.map f).sum := by
  induction l with
  | nil => rfl
  | cons a t ih => simp only [List.map_cons, List.sum_cons, ih]

theorem gradeMultiplier_mem (st : ComplianceState) :
    0 ≤ gradeMultiplier st ∧ gradeMultiplier st ≤ 1 := by
  cases st <;> norm_num [gradeMultiplier]

theorem getWeight_eq_recordWeight (r : ComplianceRecord)
    (h0 : 0 ≤ r.certainty) (h1 : r.certainty ≤ 1) :
    getWeightForCertainty r.certainty r.complianceState = recordWeight r := by
  obtain ⟨hm0, hm1⟩ := gradeMultiplier_mem r.complianceState
  unfold getWeightForCertainty recordWeight
  apply clamp01_eq_self
  · exact mul_nonneg h0 hm0
  · nlinarith

theorem updateTrustMetrics_complianceRate (s : CalibratorState)
    (hlen : s.complianceHistory ≠ [])
    (htw : (s.complianceHistory.map
        (fun r => getWeightForCertainty r.certainty r.complianceState)).sum ≠ 0) :
    (updateTrustMetrics s).currentTrustMetrics.complianceRate =
      ((s.complianceHistory.filter (fun r => r.followed)).map
          (fun r => getWeightForCertainty r.certainty r.complianceState)).sum /
        (s.complianceHistory.map
          (fun r => getWeightForCertainty r.certainty r.complianceState)).sum := by
  unfold updateTrustMetrics
  dsimp only
  simp only [weightedPairs_total_sum, weightedPairs_filter_sum]
  rw [if_neg (fun h => hlen (List.length_eq_zero.mp h)), if_neg htw]

theorem shouldSend_state (s : QueueState) (now : ℤ) (a : CoachingAdvice) :
    ((shouldSend s now a).2.lastMessageTime = s.lastMessageTime ∧
      (shouldSend s now a).2.messageHistory = s.messageHistory) ∧
    ((shouldSend s now a).2.pendingMessages = s.pendingMessages ∨
      ((shouldSend s now a).2.pendingMessages = s.pendingMessages ++ [a] ∧
        a.priority = .HIGH)) := by
  unfold shouldSend
  dsimp only
  split_ifs <;>
    first
      | exact ⟨⟨rfl, rfl⟩, Or.inl rfl⟩
      | exact ⟨⟨rfl, rfl⟩, Or.inr ⟨rfl, by assumption⟩⟩

theorem shouldSend_low_eq (s : QueueState) (now : ℤ) (a : CoachingAdvice)
    (hl : a.priority = .LOW) :
    shouldSend s now a =
      if now - s.lastMessageTime < 120000 then (false, s) else (true, s) := by
  unfold shouldSend
  rw [hl]
  norm_num +decide [RATE_LIMITS]

theorem shouldSend_true_low (s : QueueState) (now : ℤ) (a : CoachingAdvice)
    (hl : a.priority = .LOW) (h : (shouldSend s now a).1 = true) :
    s.lastMessageTime + 120000 ≤ now := by
  rw [shouldSend_low_eq s now a hl] at h
  by_cases hc : now - s.lastMessageTime < 120000
  · rw [if_pos hc] at h
    exact Bool.noConfusion h
  · omega

theorem markSent_pendingAllHigh (s : QueueState) (now : ℤ) (a : CoachingAdvice)
    (hp : pendingAllHigh s) : pendingAllHigh (markSent s now a) := by
  intro b hb
  unfold markSent at hb
  dsimp only at hb
  exact hp b (List.mem_of_mem_filter hb)

theorem markSent_history_le (s : QueueState) (now : ℤ) (a : CoachingAdvice)
    (h : s.messageHistory.length ≤ 50) :
    (markSent s now a).messageHistory.length ≤ 50 := by
  unfold markSent
  dsimp only
  split_ifs with hgt
  · rw [List.length_tail]
    simp only [List.length_append, List.length_singleton]
    omega
  · simp only [List.length_append, List.length_singleton] at hgt ⊢
    omega

theorem runQ_cons_none (s : QueueState) (e : QEvent) (es : List QEvent)
    (s1 : QueueState) (h : stepQ s e = (s1, none)) :
    runQ s (e :: es) = runQ s1 es := by
  simp only [runQ, h]

theorem runQ_cons_some (s : QueueState) (e : QEvent) (es : List QEvent)
    (s1 : QueueState) (d : ℤ × CoachingAdvice) (h : stepQ s e = (s1, some d)) :
    runQ s (e :: es) = ((runQ s1 es).1, d :: (runQ s1 es).2) := by
  simp only [runQ, h]

theorem stepQ_spec (s : QueueState) (e : QEvent) (hp : pendingAllHigh s) :
    pendingAllHigh (stepQ s e).1 ∧
    ((stepQ s e).2 = none ∧ (stepQ s e).1.lastMessageTime = s.lastMessageTime ∨
      ∃ a, (stepQ s e).2 = some (e.time, a) ∧
        (stepQ s e).1.lastMessageTime = e.time ∧
        (a.priority = .LOW → s.lastMessageTime + 120000 ≤ e.time)) := by
  cases e with
  | attempt t a =>
    obtain ⟨⟨hlast, _⟩, hpend⟩ := shouldSend_state s t a
    have hp2 : pendingAllHigh (shouldSend s t a).2 := by
      rcases hpend with hsame | ⟨happ, hhigh⟩
      · intro b hb
        rw [hsame] at hb
        exact hp b hb
      · intro b hb
        rw [happ] at hb
        rcases List.mem_append.mp hb with hb2 | hb2
        · exact hp b hb2
        · rw [List.mem_singleton.mp hb2]
          exact hhigh
    rcases hss : shouldSend s t a with ⟨ok, s1⟩
    rw [hss] at hlast hp2
    have hp3 : pendingAllHigh s1 := hp2
    have hlast2 : s1.lastMessageTime = s.lastMessageTime := hlast
    cases ok with
    | true =>
      refine ⟨?_, Or.inr ⟨a, ?_, ?_, ?_⟩⟩
      · simp only [stepQ, hss]
        exact markSent_pendingAllHigh s1 t a hp3
      · simp only [stepQ, hss, QEvent.time]
      · simp only [stepQ, hss, QEvent.time, markSent]
      · intro hl
        exact shouldSend_true_low s t a hl (by rw [hss])
    | false =>
      refine ⟨?_, Or.inl ⟨?_, ?_⟩⟩
      · simp only [stepQ, hss]
        exact hp3
      · simp only [stepQ, hss]
      · simp only [stepQ, hss]
        exact hlast2
  | drain t =>
    cases hpm : s.pendingMessages with
    | nil =>
      refine ⟨?_, Or.inl ⟨?_, ?_⟩⟩ <;>
        simp only [stepQ, getNextPending, hpm]
      exact hp
    | cons next rest =>
      have hnext : next.priority = .HIGH :=
        hp next (by rw [hpm]; exact List.mem_cons_self _ _)
      have hrest : ∀ b ∈ rest, b.priority = .HIGH := fun b hb =>
        hp b (by rw [hpm]; exact List.mem_cons_of_mem _ hb)
      by_cases hc : RATE_LIMITS next.priority ≤ t - s.lastMessageTime
      · refine ⟨?_, Or.inr ⟨next, ?_, ?_, ?_⟩⟩
        · simp only [stepQ, getNextPending, hpm, if_pos hc]
          intro b hb
          unfold markSent at hb
          dsimp only at hb
          exact hrest b (List.mem_of_mem_filter hb)
        · simp only [stepQ, getNextPending, hpm, if_pos hc, QEvent.time]
        · simp only [stepQ, getNextPending, hpm, if_pos hc, QEvent.time, markSent]
        · intro hl
          rw [hnext] at hl
          exact absurd hl (by decide)
      · refine ⟨?_, Or.inl ⟨?_, ?_⟩⟩ <;>
          simp only [stepQ, getNextPending, hpm, if_neg hc]
        exact hp

theorem runQ_spec (evs : List QEvent) : ∀ s : QueueState, pendingAllHigh s →
    List.Pairwise (fun e1 e2 : QEvent => e1.time ≤ e2.time) evs →
    (∀ e ∈ evs, s.lastMessageTime ≤ e.time) →
    pendingAllHigh (runQ s evs).1 ∧
    s.lastMessageTime ≤ (runQ s evs).1.lastMessageTime ∧
    (∀ d ∈ (runQ s evs).2, s.lastMessageTime ≤ d.1 ∧
      (d.2.priority = .LOW → s.lastMessageTime + 120000 ≤ d.1)) ∧
    List.Pairwise (fun d1 d2 : ℤ × CoachingAdvice =>
      d1.2.priority = .LOW → d2.2.priority = .LOW → d1.1 + 120000 ≤ d2.1)
      (runQ s evs).2 := by
  induction evs with
  | nil =>
    intro s hp _ _
    exact ⟨hp, le_rfl, by simp [runQ], by simp [runQ]⟩
  | cons e es ih =>
    intro s hp hpair hfst
    have hfe : s.lastMessageTime ≤ e.time := hfst e (List.mem_cons_self _ _)
    have hpairtail := (List.pairwise_cons.mp hpair).2
    have hheadrel := (List.pairwise_cons.mp hpair).1
    obtain ⟨hsp, hstep⟩ := stepQ_spec s e hp
    rcases hst : stepQ s e with ⟨s1, od⟩
    rw [hst] at hsp hstep
    have hsp2 : pendingAllHigh s1 := hsp
    rcases hstep with ⟨hod, hlast⟩ | ⟨a, hod, hlast, hlow⟩
    · have hod2 : od = none := hod
      subst hod2
      have hl2 : s1.lastMessageTime = s.lastMessageTime := hlast
      have hfst1 : ∀ e2 ∈ es, s1.lastMessageTime ≤ e2.time := by
        intro e2 he2
        rw [hl2]
        exact hfst e2 (List.mem_cons_of_mem _ he2)
      obtain ⟨ih1, ih2, ih3, ih4⟩ := ih s1 hsp2 hpairtail hfst1
      rw [runQ_cons_none s e es s1 hst]
      refine ⟨ih1, ?_, ?_, ih4⟩
      · rw [← hl2]
        exact ih2
      · intro d hd
        obtain ⟨hd1, hd2⟩ := ih3 d hd
        rw [hl2] at hd1 hd2
        exact ⟨hd1, hd2⟩
    · have hod2 : od = some (e.time, a) := hod
      subst hod2
      have hl2 : s1.lastMessageTime = e.time := hlast
      have hfst1 : ∀ e2 ∈ es, s1.lastMessageTime ≤ e2.time := by
        intro e2 he2
        rw [hl2]
        exact hheadrel e2 he2
      obtain ⟨ih1, ih2, ih3, ih4⟩ := ih s1 hsp2 hpairtail hfst1
      rw [runQ_cons_some s e es s1 (e.time, a) hst]
      refine ⟨ih1, ?_, ?_, ?_⟩
      · calc s.lastMessageTime ≤ e.time := hfe
          _ = s1.lastMessageTime := hl2.symm
          _ ≤ (runQ s1 es).1.lastMessageTime := ih2
      · intro d hd
        rcases List.mem_cons.mp hd with rfl | hd2
        · exact ⟨hfe, fun hl => hlow hl⟩
        · obtain ⟨hd1, hd3⟩ := ih3 d hd2
          rw [hl2] at hd1 hd3
          constructor
          · exact le_trans hfe hd1
          · intro hl
            have := hd3 hl
            omega
      · refine List.Pairwise.cons ?_ ih4
        intro d hd _ hdl
        obtain ⟨_, hd3⟩ := ih3 d hd
        rw [hl2] at hd3
        exact hd3 hdl

/- ------------------------------------------------------------------ -/
/- Claim theorems -/
/- ------------------------------------------------------------------ -/

/-- C1: for every candidate advice with priority GAME_ENDING or CRITICAL,
every confidence score in the unit interval and every trust profile, the
arbitration decision of enrichAdvice is deliver: neither confidence
suppression nor trust-based verbosity suppression fires. -/
theorem gameEndingAndCriticalAlwaysDelivered (advice : CoachingAdvice) (score : ℚ)
    (trust : TrustMetrics)
    (hp : advice.priority = .GAME_ENDING ∨ advice.priority = .CRITICAL)
    (h0 : 0 ≤ score) (h1 : score ≤ 1) :
    enrichDecision advice score trust = true := by
  rcases hp with h | h <;> simp [enrichDecision, shouldSuppressAdvice, h]

/-- Witness for C1 at a concrete CRITICAL advice with confidence 0 and the
neutral trust profile. -/
theorem gameEndingAndCriticalAlwaysDeliveredWitness :
    enrichDecision
      { priority := .CRITICAL, message := "c", confidence := none, isDoNothing := false
        netWorthContext := none, gameTime := 0 } 0 initialTrustMetrics = true :=
  gameEndingAndCriticalAlwaysDelivered _ 0 _ (Or.inr rfl) le_rfl zero_le_one

/-- C2: for every snapshot, advice category and optional timing window, the
confidence score lies in the unit interval and equals the weighted sum of
the four clamped factors, with weights 0.2/0.3/0.4/0.1 for push- or
window-class categories and 0.3/0.3/0.2/0.2 otherwise. -/
theorem confidenceScoreIsClampedWeightedSum (g : ProcessedGameState)
    (adviceType : String) (timingWindow : Option ℚ) :
    (0 ≤ calculateConfidence g adviceType timingWindow ∧
      calculateConfidence g adviceType timingWindow ≤ 1) ∧
    calculateConfidence g adviceType timingWindow =
      (if isPushOrWindowType adviceType then
        clamp01 (confidenceFactors g timingWindow).dataCompleteness * (2/10) +
          clamp01 (confidenceFactors g timingWindow).visionCertainty * (3/10) +
          clamp01 (confidenceFactors g timingWindow).timingPrecision * (4/10) +
          clamp01 (confidenceFactors g timingWindow).netWorthReliability * (1/10)
      else
        clamp01 (confidenceFactors g timingWindow).dataCompleteness * (3/10) +
          clamp01 (confidenceFactors g timingWindow).visionCertainty * (3/10) +
          clamp01 (confidenceFactors g timingWindow).timingPrecision * (2/10) +
          clamp01 (confidenceFactors g timingWindow).netWorthReliability * (2/10)) := by
  obtain ⟨hd0, hd1⟩ := dataCompleteness_mem g
  obtain ⟨hv0, hv1⟩ := visionCertainty_mem g
  obtain ⟨ht0, ht1⟩ := timingPrecision_mem timingWindow
  obtain ⟨hn0, hn1⟩ := netWorthReliability_mem g
  have hfacts : confidenceFactors g timingWindow =
      { dataCompleteness := calculateDataCompleteness g
        visionCertainty := calculateVisionCertainty g
        timingPrecision := calculateTimingPrecision timingWindow
        netWorthReliability := calculateNetWorthReliability g } := rfl
  constructor
  · unfold calculateConfidence
    rw [hfacts]
    split_ifs <;> constructor <;> nlinarith
  · unfold calculateConfidence
    rw [hfacts]
    split_ifs <;>
      simp only [clamp01_eq_self hd0 hd1, clamp01_eq_self hv0 hv1,
        clamp01_eq_self ht0 ht1, clamp01_eq_self hn0 hn1]

/-- C5 counterexample: the LOW advice with a 15000 resource delta and
confidence 0.4, arbitrated under a low-verbosity trust profile, is
suppressed by the confidence rule even though the high-value override
predicate holds of it. -/
theorem highValueOverrideCounterexample :
    enrichDecision c5Advice (4/10) lowVerbosityTrust = false ∧
    isHighValueOpportunity c5Advice = true := by
  constructor <;>
    norm_num +decide [enrichDecision, shouldSuppressAdvice, shouldReduceVerbosity,
      isHighValueOpportunity, c5Advice, lowVerbosityTrust]

/-- C5 amended: a LOW-priority advice with a resource delta of magnitude
above 10000 is delivered under any trust profile once its confidence score
is at least 0.7, the high-value override bypassing the low-verbosity
suppression; at confidence 0.4 the same advice is suppressed by the
confidence rule, which runs before the override is consulted. -/
theorem highValueOverrideAmended (advice : CoachingAdvice) (score : ℚ)
    (trust : TrustMetrics) (hp : advice.priority = .LOW) (hs : 7/10 ≤ score)
    (hv : ∃ ctx, advice.netWorthContext = some ctx ∧ 10000 < |ctx.delta|) :
    enrichDecision advice score trust = true ∧
    enrichDecision advice (4/10) trust = false := by
  rcases hv with ⟨ctx, hctx, hd⟩
  constructor
  · have hns : shouldSuppressAdvice score advice.priority = false := by
      rw [hp]
      unfold shouldSuppressAdvice
      rw [if_neg (by simp), if_neg (by linarith), if_neg (fun hc => absurd hc.1 (by linarith))]
    have hho : isHighValueOpportunity advice = true := by
      unfold isHighValueOpportunity
      rw [hp, hctx]
      have hdec : decide (|ctx.delta| > 10000) = true := decide_eq_true hd
      split_ifs <;> simp [hdec]
    simp [enrichDecision, hns, hho]
  · have hns : shouldSuppressAdvice (4/10) advice.priority = true := by
      rw [hp]
      unfold shouldSuppressAdvice
      rw [if_neg (by simp), if_pos (by norm_num)]
    simp [enrichDecision, hns]

/-- Witness for C5 amended, at the same advice delivered with confidence
0.7 under the low-verbosity profile. -/
theorem highValueOverrideAmendedWitness :
    enrichDecision c5Advice (7/10) lowVerbosityTrust = true ∧
    enrichDecision c5Advice (4/10) lowVerbosityTrust = false :=
  highValueOverrideAmended c5Advice (7/10) lowVerbosityTrust rfl le_rfl
    ⟨{ delta := 15000, deltaPercent := 20 }, rfl, by norm_num⟩

/-- C8 counterexample: on a snapshot whose operator-side total is unknown
while an opposing entity has a known resource value, the code returns 0.3
although the claimed case split assigns this case the 0.5 plus half the
known fraction formula, here 1. -/
theorem resourceReliabilityCounterexample :
    calculateNetWorthReliability c8Snapshot = 3/10 ∧
    netWorthReliabilitySpec c8Snapshot = 1 ∧
    calculateNetWorthReliability c8Snapshot ≠ netWorthReliabilitySpec c8Snapshot := by
  refine ⟨?_, ?_, ?_⟩ <;>
    norm_num +decide [calculateNetWorthReliability, netWorthReliabilitySpec, c8Snapshot]

/-- C8 amended: the resource-reliability factor is 0.3 whenever the
operator-side total is unknown, whether or not the opposing total is known;
0.6 when the operator-side total is known and the opposing total is not;
and 0.5 plus half the known fraction of the opposing roster when both
totals are known. -/
theorem resourceReliabilityAmended (g : ProcessedGameState) :
    (¬ 0 < g.teamNetWorth → calculateNetWorthReliability g = 3/10) ∧
    (0 < g.teamNetWorth → ¬ 0 < (g.enemies.map (fun e => e.netWorth)).sum →
      calculateNetWorthReliability g = 6/10) ∧
    (0 < g.teamNetWorth → 0 < (g.enemies.map (fun e => e.netWorth)).sum →
      calculateNetWorthReliability g =
        1/2 + ((g.enemies.filter (fun e => 0 < e.netWorth)).length : ℚ) /
          ((max g.enemies.length 1 : Nat) : ℚ) * (1/2)) := by
  refine ⟨fun h => ?_, fun h1 h2 => ?_, fun h1 h2 => ?_⟩ <;>
    · unfold calculateNetWorthReliability
      dsimp only
      split_ifs <;> first | rfl | tauto

/-- Witness for C8 amended at concrete snapshots covering the three cases. -/
theorem resourceReliabilityAmendedWitness :
    calculateNetWorthReliability c8Snapshot = 3/10 ∧
    calculateNetWorthReliability { c8Snapshot with teamNetWorth := 50, enemies := [] } = 6/10 ∧
    calculateNetWorthReliability { c8Snapshot with teamNetWorth := 50 } =
      1/2 + ((({ c8Snapshot with teamNetWorth := 50 } :
          ProcessedGameState).enemies.filter (fun e => 0 < e.netWorth)).length : ℚ) /
        ((max ({ c8Snapshot with teamNetWorth := 50 } :
          ProcessedGameState).enemies.length 1 : Nat) : ℚ) * (1/2) :=
  ⟨(resourceReliabilityAmended c8Snapshot).1 (by norm_num [c8Snapshot]),
   (resourceReliabilityAmended _).2.1 (by norm_num [c8Snapshot]) (by simp [c8Snapshot]),
   (resourceReliabilityAmended _).2.2 (by norm_num [c8Snapshot]) (by norm_num [c8Snapshot])⟩

/-- C3 counterexample: from eight stored records, two consecutive grading
calls are each made while the history holds fewer than ten records, yet the
second call, reaching ten high-certainty records, rewrites the trust
profile. -/
theorem trustUpdateUnderTenCounterexample :
    c3StateEight.complianceHistory.length < 10 ∧
    (c3Step c3StateEight).complianceHistory.length < 10 ∧
    (c3Step (c3Step c3StateEight)).currentTrustMetrics ≠
      c3StateEight.currentTrustMetrics := by
  refine ⟨by norm_num [c3StateEight], ?_, ?_⟩
  · norm_num +decide [c3Step, checkCompliance, trackingLookup, buildComplianceRecord,
      appendBounded, shouldUpdateTrust, MAX_HISTORY, c3StateEight, c3Record, c3Advice,
      List.replicate, varianceLastTen, meanCertaintyLastTen, lastTen, followedValues,
      updateTrustMetrics, getWeightForCertainty, gradeMultiplier, clamp01,
      initialTrustMetrics]
  · intro h
    have hv := congrArg TrustMetrics.verbosityLevel h
    rw [show (c3Step (c3Step c3StateEight)).currentTrustMetrics.verbosityLevel =
          VerbosityLevel.low by
        norm_num +decide [c3Step, checkCompliance, trackingLookup, buildComplianceRecord,
          appendBounded, shouldUpdateTrust, MAX_HISTORY, c3StateEight, c3Record, c3Advice,
          List.replicate, varianceLastTen, meanCertaintyLastTen, lastTen, followedValues,
          updateTrustMetrics, getWeightForCertainty, gradeMultiplier, clamp01,
          initialTrustMetrics]] at hv
    exact absurd hv (by decide)

/-- C3 amended: the trust profile changes only when the post-append history
holds at least ten records and either the variance of the last ten followed
bits is below 0.3 or their mean certainty exceeds 0.7; and any two
consecutive grading calls that begin with at most seven stored records, so
that the history still holds fewer than ten records after both appends,
leave the profile bit-for-bit unchanged. -/
theorem trustUpdateGatingAmended :
    (∀ (s : CalibratorState) (id : String) (st : ComplianceState) (c : ℚ)
        (out : AdviceOutcome) (rt gt : ℚ),
      (checkCompliance s id st c out rt gt).currentTrustMetrics ≠
          s.currentTrustMetrics →
        10 ≤ (checkCompliance s id st c out rt gt).complianceHistory.length ∧
          (varianceLastTen (checkCompliance s id st c out rt gt).complianceHistory <
              3/10 ∨
            meanCertaintyLastTen
                (checkCompliance s id st c out rt gt).complianceHistory > 7/10)) ∧
    (∀ (s : CalibratorState) (id1 : String) (st1 : ComplianceState) (c1 : ℚ)
        (out1 : AdviceOutcome) (rt1 gt1 : ℚ) (id2 : String) (st2 : ComplianceState)
        (c2 : ℚ) (out2 : AdviceOutcome) (rt2 gt2 : ℚ),
      s.complianceHistory.length ≤ 7 →
        (checkCompliance (checkCompliance s id1 st1 c1 out1 rt1 gt1) id2 st2 c2
            out2 rt2 gt2).currentTrustMetrics = s.currentTrustMetrics) := by
  constructor
  · intro s id st c out rt gt hne
    unfold checkCompliance at hne ⊢
    cases hlook : trackingLookup id s.adviceTracking with
    | none =>
      rw [hlook] at hne
      exact absurd rfl hne
    | some adv =>
      rw [hlook] at hne
      dsimp only at hne ⊢
      by_cases hupd : shouldUpdateTrust (appendBounded s.complianceHistory
          (buildComplianceRecord id adv st c out rt gt)) = true
      · rw [if_pos hupd]
        rw [updateTrustMetrics_history]
        exact (shouldUpdateTrust_eq_true_iff _).mp hupd
      · rw [if_neg hupd] at hne
        exact absurd rfl hne
  · intro s id1 st1 c1 out1 rt1 gt1 id2 st2 c2 out2 rt2 gt2 hlen
    obtain ⟨h1m, h1l⟩ := checkCompliance_small s id1 st1 c1 out1 rt1 gt1 (by omega)
    obtain ⟨h2m, _⟩ := checkCompliance_small (checkCompliance s id1 st1 c1 out1 rt1 gt1)
      id2 st2 c2 out2 rt2 gt2 (by omega)
    rw [h2m, h1m]

/-- Witness for C3 amended: a grading call from nine stored records changes
the profile and indeed satisfies the gate, and two grading calls from an
empty calibrator leave the profile unchanged. -/
theorem trustUpdateGatingAmendedWitness :
    (10 ≤ (checkCompliance c3StateNine "a" .full_compliance (9/10) .unknown 0
        0).complianceHistory.length ∧
      (varianceLastTen (checkCompliance c3StateNine "a" .full_compliance (9/10)
          .unknown 0 0).complianceHistory < 3/10 ∨
        meanCertaintyLastTen (checkCompliance c3StateNine "a" .full_compliance (9/10)
            .unknown 0 0).complianceHistory > 7/10)) ∧
    (checkCompliance (checkCompliance initialCalibratorState "a" .full_compliance
          (9/10) .unknown 0 0) "a" .full_compliance (9/10) .unknown 0
        0).currentTrustMetrics = initialCalibratorState.currentTrustMetrics :=
  ⟨trustUpdateGatingAmended.1 c3StateNine "a" .full_compliance (9/10) .unknown 0 0
      (by
        intro h
        have hv := congrArg TrustMetrics.verbosityLevel h
        rw [show (checkCompliance c3StateNine "a" .full_compliance (9/10) .unknown 0
              0).currentTrustMetrics.verbosityLevel = VerbosityLevel.low by
            norm_num +decide [checkCompliance, trackingLookup, buildComplianceRecord,
              appendBounded, shouldUpdateTrust, MAX_HISTORY, c3StateNine, c3Record,
              c3Advice, List.replicate, varianceLastTen, meanCertaintyLastTen, lastTen,
              followedValues, updateTrustMetrics, getWeightForCertainty, gradeMultiplier,
              clamp01, initialTrustMetrics]] at hv
        exact absurd hv (by decide)),
   trustUpdateGatingAmended.2 initialCalibratorState "a" .full_compliance (9/10)
      .unknown 0 0 "a" .full_compliance (9/10) .unknown 0 0
      (by simp [initialCalibratorState])⟩

/-- C7: over every history on which an update actually runs, the computed
compliance rate is the weight of the followed records divided by the total
weight, where a record weighs its certainty times the grade multiplier and
followed means a grade of full, partial, ambiguous or delayed. -/
theorem complianceRateIsWeightedFraction (s : CalibratorState)
    (hcert : ∀ r ∈ s.complianceHistory, 0 ≤ r.certainty ∧ r.certainty ≤ 1)
    (hfol : ∀ r ∈ s.complianceHistory, r.followed = isFollowedGrade r.complianceState)
    (hpos : 0 < (s.complianceHistory.map recordWeight).sum) :
    (updateTrustMetrics s).currentTrustMetrics.complianceRate =
      ((s.complianceHistory.filter
          (fun r => isFollowedGrade r.complianceState)).map recordWeight).sum /
        (s.complianceHistory.map recordWeight).sum := by
  have hmapeq : s.complianceHistory.map
      (fun r => getWeightForCertainty r.certainty r.complianceState) =
      s.complianceHistory.map recordWeight :=
    List.map_congr_left
      (fun r hr => getWeight_eq_recordWeight r (hcert r hr).1 (hcert r hr).2)
  have hfiltereq : s.complianceHistory.filter (fun r => r.followed) =
      s.complianceHistory.filter (fun r => isFollowedGrade r.complianceState) :=
    List.filter_congr (fun r hr => hfol r hr)
  have hne : s.complianceHistory ≠ [] := by
    intro h
    rw [h] at hpos
    simp at hpos
  have htw : (s.complianceHistory.map
      (fun r => getWeightForCertainty r.certainty r.complianceState)).sum ≠ 0 := by
    rw [hmapeq]
    exact ne_of_gt hpos
  rw [updateTrustMetrics_complianceRate s hne htw, hmapeq, hfiltereq]
  congr 1
  apply congrArg
  apply List.map_congr_left
  intro r hr
  have hr2 : r ∈ s.complianceHistory := List.mem_of_mem_filter hr
  exact getWeight_eq_recordWeight r (hcert r hr2).1 (hcert r hr2).2

/-- Witness for C7 at a three-record history with two followed
full-compliance records of certainty 0.9 and one missed record of certainty
0.3. -/
theorem complianceRateIsWeightedFractionWitness :
    (updateTrustMetrics c7State).currentTrustMetrics.complianceRate =
      ((c7State.complianceHistory.filter
          (fun r => isFollowedGrade r.complianceState)).map recordWeight).sum /
        (c7State.complianceHistory.map recordWeight).sum :=
  complianceRateIsWeightedFraction c7State
    (by
      intro r hr
      simp only [c7State, List.mem_cons, List.not_mem_nil, or_false] at hr
      rcases hr with rfl | rfl | rfl <;> norm_num [c3Record, c7RecordMissed])
    (by
      intro r hr
      simp only [c7State, List.mem_cons, List.not_mem_nil, or_false] at hr
      rcases hr with rfl | rfl | rfl <;>
        norm_num +decide [c3Record, c7RecordMissed, isFollowedGrade])
    (by norm_num [c7State, recordWeight, gradeMultiplier, c3Record, c7RecordMissed])

/-- C9: a grading call with a registered advice id appends one record
carrying that id to the bounded history and leaves the tracking map intact,
so iterated regrading of the same advice accumulates records until the
100-entry cap. -/
theorem regradingAppendsRecords (s : CalibratorState) (id : String)
    (st : ComplianceState) (c : ℚ) (out : AdviceOutcome) (rt gt : ℚ)
    (adv : CoachingAdvice) (hlook : trackingLookup id s.adviceTracking = some adv)
    (hlen : s.complianceHistory.length ≤ MAX_HISTORY) :
    ((checkCompliance s id st c out rt gt).adviceTracking = s.adviceTracking ∧
      (checkCompliance s id st c out rt gt).complianceHistory.length =
        min (s.complianceHistory.length + 1) MAX_HISTORY ∧
      ((checkCompliance s id st c out rt gt).complianceHistory.getLast?).map
          (fun r => r.adviceId) = some id) ∧
    ∀ n : Nat,
      (iterCheckCompliance s id st c out rt gt n).adviceTracking =
          s.adviceTracking ∧
        (iterCheckCompliance s id st c out rt gt n).complianceHistory.length =
          min (s.complianceHistory.length + n) MAX_HISTORY := by
  have hstep : ∀ s2 : CalibratorState, trackingLookup id s2.adviceTracking = some adv →
      s2.complianceHistory.length ≤ MAX_HISTORY →
      (checkCompliance s2 id st c out rt gt).adviceTracking = s2.adviceTracking ∧
        (checkCompliance s2 id st c out rt gt).complianceHistory.length =
          min (s2.complianceHistory.length + 1) MAX_HISTORY ∧
        ((checkCompliance s2 id st c out rt gt).complianceHistory.getLast?).map
            (fun r => r.adviceId) = some id := by
    intro s2 hlook2 hlen2
    refine ⟨checkCompliance_tracking s2 id st c out rt gt, ?_, ?_⟩
    · rw [checkCompliance_history_of_lookup s2 id st c out rt gt adv hlook2]
      exact appendBounded_length _ _ hlen2
    · rw [checkCompliance_history_of_lookup s2 id st c out rt gt adv hlook2,
        appendBounded_getLast]
      rfl
  refine ⟨hstep s hlook hlen, ?_⟩
  intro n
  induction n with
  | zero =>
    refine ⟨rfl, ?_⟩
    simp only [iterCheckCompliance, Nat.add_zero]
    omega
  | succ n ih =>
    obtain ⟨iht, ihl⟩ := ih
    have hlook2 : trackingLookup id
        (iterCheckCompliance s id st c out rt gt n).adviceTracking = some adv := by
      rw [iht]
      exact hlook
    have hlen2 : (iterCheckCompliance s id st c out rt gt n).complianceHistory.length ≤
        MAX_HISTORY := by
      rw [ihl]
      omega
    obtain ⟨ht, hl, _⟩ := hstep _ hlook2 hlen2
    refine ⟨?_, ?_⟩
    · simp only [iterCheckCompliance]
      rw [ht, iht]
    · simp only [iterCheckCompliance]
      rw [hl, ihl]
      omega

/-- Witness for C9 at a one-record calibrator with a registered advice. -/
theorem regradingAppendsRecordsWitness :
    ((checkCompliance c9State "a" .full_compliance (9/10) .unknown 0
        0).adviceTracking = c9State.adviceTracking ∧
      (checkCompliance c9State "a" .full_compliance (9/10) .unknown 0
          0).complianceHistory.length =
        min (c9State.complianceHistory.length + 1) MAX_HISTORY ∧
      ((checkCompliance c9State "a" .full_compliance (9/10) .unknown 0
            0).complianceHistory.getLast?).map (fun r => r.adviceId) = some "a") ∧
    ∀ n : Nat,
      (iterCheckCompliance c9State "a" .full_compliance (9/10) .unknown 0 0
            n).adviceTracking = c9State.adviceTracking ∧
        (iterCheckCompliance c9State "a" .full_compliance (9/10) .unknown 0 0
              n).complianceHistory.length =
          min (c9State.complianceHistory.length + n) MAX_HISTORY :=
  regradingAppendsRecords c9State "a" .full_compliance (9/10) .unknown 0 0 c3Advice
    (by simp [c9State, trackingLookup, List.find?])
    (by norm_num [c9State, MAX_HISTORY])

/-- C4: over every time-ordered sequence of delivery attempts and drains
run against the fresh shared rate limiter, any two LOW-priority deliveries
are at least 120000 milliseconds apart. -/
theorem lowPriorityDeliverySpacing (evs : List QEvent)
    (hpair : List.Pairwise (fun e1 e2 : QEvent => e1.time ≤ e2.time) evs)
    (hpos : ∀ e ∈ evs, 0 ≤ e.time) :
    List.Pairwise (fun d1 d2 : ℤ × CoachingAdvice =>
      d1.2.priority = .LOW → d2.2.priority = .LOW → d1.1 + 120000 ≤ d2.1)
      (runQ initialQueueState evs).2 :=
  (runQ_spec evs initialQueueState
      (by intro a ha; simp [initialQueueState] at ha)
      hpair (fun e he => hpos e he)).2.2.2

/-- Witness for C4 at a concrete trace: a LOW delivery at 200000, a
rate-limited LOW attempt at 250000, and a LOW delivery at 320001. -/
theorem lowPriorityDeliverySpacingWitness :
    List.Pairwise (fun d1 d2 : ℤ × CoachingAdvice =>
      d1.2.priority = .LOW → d2.2.priority = .LOW → d1.1 + 120000 ≤ d2.1)
      (runQ initialQueueState
        [QEvent.attempt 200000 c4LowAdvice, QEvent.attempt 250000 c4LowAdvice,
          QEvent.attempt 320001 c4LowAdvice]).2 :=
  lowPriorityDeliverySpacing
    [QEvent.attempt 200000 c4LowAdvice, QEvent.attempt 250000 c4LowAdvice,
      QEvent.attempt 320001 c4LowAdvice]
    (by simp [QEvent.time])
    (by simp [QEvent.time])

/-- C6 counterexample: the session-start transition clears the calibrator
but leaves the rate limiter untouched: the last-delivered clock, the
delivered history and the pending buffer all survive the session
boundary. -/
theorem sessionBoundaryCounterexample :
    (handleSessionStart c6State).queue.lastMessageTime ≠ 0 ∧
    (handleSessionStart c6State).queue.messageHistory ≠ [] ∧
    (handleSessionStart c6State).queue.pendingMessages ≠ [] ∧
    (handleSessionStart c6State).queue ≠ queueClear c6State.queue := by
  refine ⟨?_, ?_, ?_, ?_⟩ <;>
    simp [handleSessionStart, c6State, c6Queue, queueClear, initialQueueState]

/-- C6 amended: the session-start transition resets the calibrator in one
step, restoring the neutral trust profile and emptying the compliance
history and the calibrator's advice tracking map, but it does not clear the
rate limiter: the queue state, clock and buffers included, is left exactly
as it was, and so is the coach-level advice tracking map. -/
theorem sessionBoundaryAmended (s : CoachState) (h : s.analyzerActive = false) :
    (handleSessionStart s).calibrator = initialCalibratorState ∧
    (handleSessionStart s).queue = s.queue ∧
    (handleSessionStart s).coachAdviceTracking = s.coachAdviceTracking := by
  unfold handleSessionStart
  rw [if_neg (by simp [h])]
  exact ⟨rfl, rfl, rfl⟩

/-- Witness for C6 amended at the concrete mid-session coach state. -/
theorem sessionBoundaryAmendedWitness :
    (handleSessionStart c6State).calibrator = initialCalibratorState ∧
    (handleSessionStart c6State).queue = c6State.queue ∧
    (handleSessionStart c6State).coachAdviceTracking = c6State.coachAdviceTracking :=
  sessionBoundaryAmended c6State rfl

/-- C10: the pending buffer is unbounded: for every n there is a sequence
of rate-limited HIGH-priority attempts after which the buffer holds more
than n entries, while the delivery history never grows past its 50-entry
cap. -/
theorem pendingBufferUnbounded :
    (∀ n : Nat, ∃ evs : List QEvent,
      n < (runQ initialQueueState evs).1.pendingMessages.length) ∧
    (∀ (s : QueueState) (now : ℤ) (a : CoachingAdvice),
      s.messageHistory.length ≤ 50 →
        (markSent s now a).messageHistory.length ≤ 50) := by
  constructor
  · have hstep : ∀ p : List CoachingAdvice,
        stepQ { lastMessageTime := 0, messageHistory := [], pendingMessages := p }
            (QEvent.attempt 0 c10HighAdvice) =
          ({ lastMessageTime := 0, messageHistory := []
             pendingMessages := p ++ [c10HighAdvice] }, none) := by
      intro p
      have hss : shouldSend
          { lastMessageTime := 0, messageHistory := [], pendingMessages := p } 0
          c10HighAdvice =
          (false, { lastMessageTime := 0, messageHistory := []
                    pendingMessages := p ++ [c10HighAdvice] }) := by
        unfold shouldSend
        norm_num +decide [c10HighAdvice, RATE_LIMITS]
      simp only [stepQ, hss]
    have hrun : ∀ (k : Nat) (p : List CoachingAdvice),
        runQ { lastMessageTime := 0, messageHistory := [], pendingMessages := p }
            (List.replicate k (QEvent.attempt 0 c10HighAdvice)) =
          ({ lastMessageTime := 0, messageHistory := []
             pendingMessages := p ++ List.replicate k c10HighAdvice }, []) := by
      intro k
      induction k with
      | zero => intro p; simp [runQ]
      | succ k ihk =>
        intro p
        rw [List.replicate_succ,
          runQ_cons_none _ _ _ _ (hstep p), ihk (p ++ [c10HighAdvice])]
        simp [List.replicate_succ]
    intro n
    refine ⟨List.replicate (n + 1) (QEvent.attempt 0 c10HighAdvice), ?_⟩
    have h0 : initialQueueState =
        { lastMessageTime := 0, messageHistory := [], pendingMessages := [] } := rfl
    rw [h0, hrun (n + 1) []]
    simp
  · exact markSent_history_le

/-- Witness for C10: one rate-limited HIGH attempt leaves a nonempty
buffer, and marking a message sent from an empty history keeps the history
within its cap. -/
theorem pendingBufferUnboundedWitness :
    (∃ evs : List QEvent,
      0 < (runQ initialQueueState evs).1.pendingMessages.length) ∧
    (markSent initialQueueState 5 c10HighAdvice).messageHistory.length ≤ 50 :=
  ⟨pendingBufferUnbounded.1 0,
   pendingBufferUnbounded.2 initialQueueState 5 c10HighAdvice
    (by simp [initialQueueState])⟩

end CoachAI

